import Mathlib

/-!
# Verification of the ETHUSDT independent-movements monitor

Shallow embedding of `src/main.py`. Prices, timestamps and percentage
changes are modelled as exact rationals (`ℚ`); the externally fitted OLS
model `ols.predict` is an opaque parameter `predict : ℚ → ℚ`; the wall
clock `time.time()` is an injected parameter `now`. The console prints of
lines 57-58 are modelled as an optional `Alert` event carrying the two
printed quantities.
-/

namespace IndependentMovements

/-- The mutable fields of the `IndependentMovements` class
(`src/main.py`, lines 24-30), together with its two constructor-time
configuration values. -/
structure MonitorState where
  time_period : ℚ
  max_change : ℚ
  last_influence_price : Option ℚ
  last_target_price : Option ℚ
  reference_time : ℚ
  total_independent_change : ℚ
  deriving Repr, DecidableEq

/-- `IndependentMovements.__init__` (lines 24-30): it stores the supplied
configuration unconditionally (there is no validation code), sets both
previous prices to `None`, the reference time to the current wall clock,
and the accumulator to `0`. -/
def init (time_period : ℚ) (max_independent_change : ℚ) (now : ℚ) : MonitorState :=
  { time_period := time_period
    max_change := max_independent_change
    last_influence_price := none
    last_target_price := none
    reference_time := now
    total_independent_change := 0 }

/-- The alert event: the code prints `time_passed / 60` minutes and
`total_independent_change` (lines 57-58); the event carries the two
pre-reset quantities those prints are derived from. -/
structure Alert where
  time_passed : ℚ
  total_independent_change : ℚ
  deriving Repr, DecidableEq

/-- Python truthiness of an optional float, as tested by
`all((self.last_influence_price, self.last_target_price))` on line 38:
`None` is falsy and so is `0.0`; any other float is truthy. -/
def truthy : Option ℚ → Bool
  | none => false
  | some x => decide (x ≠ 0)

/-- `IndependentMovements.check_independent_movements` (lines 32-66).
The guard on line 38 is Python's `all` over the two stored prices
(truthiness, see `truthy`).  Inside the guard: relative changes
(lines 41-42), the residual and its accumulation (lines 45-46),
`time_passed` (lines 49-50), the reset condition (line 53) with the
print condition (line 56) and the reset (lines 61-62).  Lines 65-66
unconditionally overwrite the stored prices in every branch. -/
def check_independent_movements (predict : ℚ → ℚ) (s : MonitorState)
    (influence_price target_price now : ℚ) : MonitorState × Option Alert :=
  let step : MonitorState × Option Alert :=
    if truthy s.last_influence_price && truthy s.last_target_price then
      let target_change : ℚ :=
        (target_price - s.last_target_price.getD 0) / s.last_target_price.getD 0 * 100
      let influence_change : ℚ :=
        (influence_price - s.last_influence_price.getD 0) / s.last_influence_price.getD 0 * 100
      let target_independent_change : ℚ := target_change - predict influence_change
      let total : ℚ := s.total_independent_change + target_independent_change
      let time_passed : ℚ := now - s.reference_time
      if |total| > s.max_change ∨ time_passed > s.time_period then
        ({ s with reference_time := now, total_independent_change := 0 },
          if |total| > s.max_change then some ⟨time_passed, total⟩ else none)
      else
        ({ s with total_independent_change := total }, none)
    else
      (s, none)
  ({ step.1 with last_influence_price := some influence_price,
                 last_target_price := some target_price },
    step.2)

/-- `check_independent_movements` with the division-by-zero failure mode
made explicit: in Python, each of the two divisions on lines 41-42 raises
`ZeroDivisionError` when its divisor is `0.0`, so this refinement tests
the divisors before computing and errors where the Python code would
raise; otherwise it behaves as `check_independent_movements`. -/
def check_independent_movementsE (predict : ℚ → ℚ) (s : MonitorState)
    (influence_price target_price now : ℚ) :
    Except Unit (MonitorState × Option Alert) :=
  if truthy s.last_influence_price && truthy s.last_target_price then
    if s.last_target_price.getD 0 = 0 ∨ s.last_influence_price.getD 0 = 0 then
      Except.error ()
    else
      Except.ok (check_independent_movements predict s influence_price target_price now)
  else
    Except.ok (check_independent_movements predict s influence_price target_price now)

/-- `get_last_price` (lines 69-82): fetches one symbol's latest price and
pairs it with the symbol.  The HTTP request is modelled as an opaque
fallible capability `fetchPrice`; any network error, non-2xx response or
unparseable price is its `error` case. -/
def get_last_price {ε : Type} (fetchPrice : String → Except ε ℚ) (symbol : String) :
    Except ε (String × ℚ) :=
  (fetchPrice symbol).map (fun p => (symbol, p))

/-- `prices` (lines 85-94): one fetch per symbol, joined by
`asyncio.gather` with its default `return_exceptions=False`, so the first
raised exception propagates and no partial result is returned; on success
the pairs are assembled into a mapping (`dict(results)`), modelled as the
association list of pairs. -/
def prices {ε : Type} (fetchPrice : String → Except ε ℚ) :
    List String → Except ε (List (String × ℚ))
  | [] => Except.ok []
  | symbol :: rest => do
      let r ← get_last_price fetchPrice symbol
      let rs ← prices fetchPrice rest
      Except.ok (r :: rs)

/-- Line 99. -/
def influence_symbol : String := "BTCUSDT"

/-- Line 100. -/
def target_symbol : String := "ETHUSDT"

/-- One iteration of the `__main__` loop (lines 106-110): fetch both
prices, then feed them to the monitor.  `k` is the iteration index, used
to drive the fetch capability and the injected clock.  On the `ok` path
both keys are present in the returned mapping, so the association-list
lookup is total there; an unhandled fetch exception propagates as
`Except.error`, exactly as the Python loop body has no `try`/`except`. -/
def loop_iter {ε : Type} (predict : ℚ → ℚ) (fetchPrice : Nat → String → Except ε ℚ)
    (nowAt : Nat → ℚ) (k : Nat) (monitor : MonitorState) : Except ε MonitorState := do
  let price_dict ← prices (fetchPrice k) [influence_symbol, target_symbol]
  Except.ok (check_independent_movements predict monitor
    ((price_dict.lookup influence_symbol).getD 0)
    ((price_dict.lookup target_symbol).getD 0)
    (nowAt k)).1

/-- The `while True` loop of lines 106-110, observed for `fuel`
iterations starting at iteration index `k`: each iteration runs
`loop_iter`; an exception raised by an iteration propagates out of the
loop (the loop body has no exception handling). -/
def run_loop {ε : Type} (predict : ℚ → ℚ) (fetchPrice : Nat → String → Except ε ℚ)
    (nowAt : Nat → ℚ) : Nat → Nat → MonitorState → Except ε MonitorState
  | _, 0, monitor => Except.ok monitor
  | k, fuel + 1, monitor => do
      let m' ← loop_iter predict fetchPrice nowAt k monitor
      run_loop predict fetchPrice nowAt (k + 1) fuel m'

/-- A sequence of direct calls to `check_independent_movements`, each
input a triple (influence price, target price, injected clock). -/
def run_calls (predict : ℚ → ℚ) (s : MonitorState) :
    List (ℚ × ℚ × ℚ) → MonitorState
  | [] => s
  | (ip, tp, now) :: rest =>
      run_calls predict (check_independent_movements predict s ip tp now).1 rest

/-- The non-trivial predictor named by the spec, `predict(x) = 0.5x + 0.1`. -/
def pHalf (x : ℚ) : ℚ := x / 2 + 1 / 10

/-- A concrete seeded state, wide threshold (10%), 3600 s window. -/
def sW : MonitorState :=
  { time_period := 3600, max_change := 10, last_influence_price := some 100,
    last_target_price := some 200, reference_time := 0, total_independent_change := 0 }

/-- A concrete seeded state with the default 1% threshold. -/
def sW2 : MonitorState :=
  { time_period := 3600, max_change := 1, last_influence_price := some 100,
    last_target_price := some 200, reference_time := 0, total_independent_change := 0 }

/-- A concrete seeded state whose 2 s window has expired at `now = 5`. -/
def sW3 : MonitorState :=
  { time_period := 2, max_change := 10, last_influence_price := some 100,
    last_target_price := some 200, reference_time := 0, total_independent_change := 0 }

/-- A concrete state in which the stored previous target price is zero. -/
def sDeg : MonitorState :=
  { time_period := 3600, max_change := 1, last_influence_price := some 100,
    last_target_price := some 0, reference_time := 0, total_independent_change := 1 / 2 }

/-- A concrete fetch capability whose `ETHUSDT` fetch fails. -/
def fetchW : String → Except String ℚ :=
  fun symbol => if symbol = "ETHUSDT" then Except.error "QuoteUnavailable" else Except.ok 100

/-- A concrete iteration-indexed fetch capability: every fetch of
iteration 0 fails, every later fetch succeeds with price 100. -/
def fetch_flaky : Nat → String → Except String ℚ
  | 0, _ => Except.error "QuoteUnavailable"
  | _ + 1, _ => Except.ok 100

/-- A concrete state in which the stored previous influence price is zero. -/
def sDeg2 : MonitorState :=
  { time_period := 3600, max_change := 1, last_influence_price := some 0,
    last_target_price := some 200, reference_time := 3, total_independent_change := 1 / 4 }

/-- Helper: an optional price that passes the truthiness test is a
nonzero value. -/
theorem truthy_getD_ne_zero (o : Option ℚ) (h : truthy o = true) : o.getD 0 ≠ 0 := by
  cases o with
  | none => simp [truthy] at h
  | some x => simpa [truthy] using h

/-- Helper: on a state whose stored prices are present and nonzero, one
call to `check_independent_movements` is exactly the evaluation branch of
lines 41-62 followed by the price overwrite of lines 65-66. -/
theorem check_eval_branch (predict : ℚ → ℚ) (s : MonitorState) (ip tg now li lt : ℚ)
    (hi : s.last_influence_price = some li) (hi0 : li ≠ 0)
    (ht : s.last_target_price = some lt) (ht0 : lt ≠ 0) :
    check_independent_movements predict s ip tg now =
      (if |s.total_independent_change + ((tg - lt) / lt * 100 - predict ((ip - li) / li * 100))| > s.max_change ∨ now - s.reference_time > s.time_period then
        ({ s with reference_time := now, total_independent_change := 0, last_influence_price := some ip, last_target_price := some tg },
          if |s.total_independent_change + ((tg - lt) / lt * 100 - predict ((ip - li) / li * 100))| > s.max_change then some ⟨now - s.reference_time, s.total_independent_change + ((tg - lt) / lt * 100 - predict ((ip - li) / li * 100))⟩ else none)
      else
        ({ s with total_independent_change := s.total_independent_change + ((tg - lt) / lt * 100 - predict ((ip - li) / li * 100)), last_influence_price := some ip, last_target_price := some tg }, none)) := by
  have hti : truthy (some li) = true := by simp [truthy, hi0]
  have htt : truthy (some lt) = true := by simp [truthy, ht0]
  simp only [check_independent_movements, hi, ht, hti, htt, Bool.and_self, if_true,
    Option.getD_some]
  split_ifs <;> rfl

theorem c4_seeding (predict : ℚ → ℚ) (tp mc t0 ip tg now : ℚ) :
    (check_independent_movements predict (init tp mc t0) ip tg now).2 = none ∧
    (check_independent_movements predict (init tp mc t0) ip tg now).1.total_independent_change = 0 ∧
    (check_independent_movements predict (init tp mc t0) ip tg now).1.last_influence_price = some ip ∧
    (check_independent_movements predict (init tp mc t0) ip tg now).1.last_target_price = some tg :=
  ⟨rfl, rfl, rfl, rfl⟩

/-- C1: whenever both previous prices are present (and nonzero, which is
what the line-38 truthiness guard requires for the evaluation branch to
run at all), the quantity accumulated into `totalIndependentChange` is
exactly `targetChange - predict(influenceChange)` for an arbitrary
predictor: the sum `old total + residual` reappears untouched as the new
total when no reset triggers, and as the alert payload when the threshold
triggers. -/
theorem c1_residual_exact (predict : ℚ → ℚ) (s : MonitorState) (ip tg now li lt : ℚ)
    (hi : s.last_influence_price = some li) (hi0 : li ≠ 0)
    (ht : s.last_target_price = some lt) (ht0 : lt ≠ 0) :
    (|s.total_independent_change + ((tg - lt) / lt * 100 - predict ((ip - li) / li * 100))| ≤ s.max_change →
      now - s.reference_time ≤ s.time_period →
      (check_independent_movements predict s ip tg now).1.total_independent_change =
        s.total_independent_change + ((tg - lt) / lt * 100 - predict ((ip - li) / li * 100))) ∧
    (|s.total_independent_change + ((tg - lt) / lt * 100 - predict ((ip - li) / li * 100))| > s.max_change →
      (check_independent_movements predict s ip tg now).2 =
        some ⟨now - s.reference_time, s.total_independent_change + ((tg - lt) / lt * 100 - predict ((ip - li) / li * 100))⟩) := by
  rw [check_eval_branch predict s ip tg now li lt hi hi0 ht ht0]
  constructor
  · intro h1 h2
    rw [if_neg (by push_neg; exact ⟨h1, h2⟩)]
  · intro h3
    rw [if_pos (Or.inl h3), if_pos h3]

/-- Witness for C1 at the spec's predictor `0.5x + 0.1`, previous prices
(100, 200), new prices (102, 206): the residual 3 - 1.1 = 1.9 is added. -/
theorem c1_residual_exact_witness :
    (check_independent_movements pHalf sW 102 206 5).1.total_independent_change =
      sW.total_independent_change + ((206 - 200) / 200 * 100 - pHalf ((102 - 100) / 100 * 100)) :=
  (c1_residual_exact pHalf sW 102 206 5 100 200 rfl (by norm_num) rfl (by norm_num)).1
    (by rw [abs_of_nonneg (by norm_num [sW, pHalf])]; norm_num [sW, pHalf])
    (by norm_num [sW])

/-- C2: when, after adding the residual, the accumulated total exceeds
the threshold in absolute value, an alert is emitted carrying the
pre-reset `timePassed` and `totalIndependentChange`, and in the same call
`referenceTime` becomes `now` and `totalIndependentChange` becomes 0. -/
theorem c2_threshold_alert (predict : ℚ → ℚ) (s : MonitorState) (ip tg now li lt : ℚ)
    (hi : s.last_influence_price = some li) (hi0 : li ≠ 0)
    (ht : s.last_target_price = some lt) (ht0 : lt ≠ 0)
    (hbr : |s.total_independent_change + ((tg - lt) / lt * 100 - predict ((ip - li) / li * 100))| > s.max_change) :
    (check_independent_movements predict s ip tg now).2 =
      some ⟨now - s.reference_time, s.total_independent_change + ((tg - lt) / lt * 100 - predict ((ip - li) / li * 100))⟩ ∧
    (check_independent_movements predict s ip tg now).1.reference_time = now ∧
    (check_independent_movements predict s ip tg now).1.total_independent_change = 0 := by
  rw [check_eval_branch predict s ip tg now li lt hi hi0 ht ht0]
  refine ⟨?_, ?_, ?_⟩ <;> rw [if_pos (Or.inl hbr)]
  rw [if_pos hbr]

/-- Witness for C2: threshold 1%, residual 1.9 breaches it; the alert
carries (5, 1.9) and the state is reset. -/
theorem c2_threshold_alert_witness :
    (check_independent_movements pHalf sW2 102 206 5).2 =
      some ⟨5 - sW2.reference_time, sW2.total_independent_change + ((206 - 200) / 200 * 100 - pHalf ((102 - 100) / 100 * 100))⟩ ∧
    (check_independent_movements pHalf sW2 102 206 5).1.reference_time = 5 ∧
    (check_independent_movements pHalf sW2 102 206 5).1.total_independent_change = 0 :=
  c2_threshold_alert pHalf sW2 102 206 5 100 200 rfl (by norm_num) rfl (by norm_num)
    (by rw [abs_of_nonneg (by norm_num [sW2, pHalf])]; norm_num [sW2, pHalf])

/-- C3: when after adding the residual the accumulated total does not
exceed the threshold but the window has expired (`now - referenceTime >
timePeriod`), the state is reset with no alert. -/
theorem c3_expiry_reset (predict : ℚ → ℚ) (s : MonitorState) (ip tg now li lt : ℚ)
    (hi : s.last_influence_price = some li) (hi0 : li ≠ 0)
    (ht : s.last_target_price = some lt) (ht0 : lt ≠ 0)
    (hle : |s.total_independent_change + ((tg - lt) / lt * 100 - predict ((ip - li) / li * 100))| ≤ s.max_change)
    (htime : now - s.reference_time > s.time_period) :
    (check_independent_movements predict s ip tg now).2 = none ∧
    (check_independent_movements predict s ip tg now).1.reference_time = now ∧
    (check_independent_movements predict s ip tg now).1.total_independent_change = 0 := by
  rw [check_eval_branch predict s ip tg now li lt hi hi0 ht ht0]
  refine ⟨?_, ?_, ?_⟩ <;> rw [if_pos (Or.inr htime)]
  rw [if_neg (not_lt.mpr hle)]

/-- Witness for C3: 2 s window expired at `now = 5`, residual 1.9 within
the 10% threshold: reset, no alert. -/
theorem c3_expiry_reset_witness :
    (check_independent_movements pHalf sW3 102 206 5).2 = none ∧
    (check_independent_movements pHalf sW3 102 206 5).1.reference_time = 5 ∧
    (check_independent_movements pHalf sW3 102 206 5).1.total_independent_change = 0 :=
  c3_expiry_reset pHalf sW3 102 206 5 100 200 rfl (by norm_num) rfl (by norm_num)
    (by rw [abs_of_nonneg (by norm_num [sW3, pHalf])]; norm_num [sW3, pHalf])
    (by norm_num [sW3])

/-- C5 counterexample: constructing with `timePeriod = -1` and
`maxIndependentChange = -1/2` is not rejected: `__init__` contains no
validation, returns a normal state holding the non-positive
configuration, and that state is usable — a first call seeds it as
always. -/
theorem c5_counterexample :
    init (-1) (-1/2) 0 =
      { time_period := -1, max_change := -1/2, last_influence_price := none,
        last_target_price := none, reference_time := 0, total_independent_change := 0 } ∧
    (check_independent_movements pHalf (init (-1) (-1/2) 0) 100 200 5).2 = none ∧
    (check_independent_movements pHalf (init (-1) (-1/2) 0) 100 200 5).1.last_target_price = some 200 :=
  ⟨rfl, rfl, rfl⟩

/-- C5 (amended): construction performs no validation: for non-positive
`timePeriod` or `maxIndependentChange` the constructor still succeeds,
stores the supplied configuration unchanged, and yields a usable state —
a first evaluation seeds it normally with no alert. -/
theorem c5_no_validation (predict : ℚ → ℚ) (tp mc t0 ip tg now : ℚ)
    (_h : tp ≤ 0 ∨ mc ≤ 0) :
    (init tp mc t0).time_period = tp ∧ (init tp mc t0).max_change = mc ∧
    (check_independent_movements predict (init tp mc t0) ip tg now).2 = none ∧
    (check_independent_movements predict (init tp mc t0) ip tg now).1.last_influence_price = some ip ∧
    (check_independent_movements predict (init tp mc t0) ip tg now).1.last_target_price = some tg :=
  ⟨rfl, rfl, rfl, rfl, rfl⟩

/-- Witness for the amended C5 at `timePeriod = -1`. -/
theorem c5_no_validation_witness :
    (init (-1) 1 0).time_period = -1 ∧ (init (-1) 1 0).max_change = 1 ∧
    (check_independent_movements pHalf (init (-1) 1 0) 100 200 5).2 = none ∧
    (check_independent_movements pHalf (init (-1) 1 0) 100 200 5).1.last_influence_price = some 100 ∧
    (check_independent_movements pHalf (init (-1) 1 0) 100 200 5).1.last_target_price = some 200 :=
  c5_no_validation pHalf (-1) 1 0 100 200 5 (Or.inl (by norm_num))

/-- C6 counterexample: with a stored previous target price of 0, the
cycle is a silent skip, not a surfaced error: the Except-refined step
returns `ok` (no `DegenerateInput`-style failure), no alert is emitted,
and the accumulator and reference time are untouched. -/
theorem c6_counterexample :
    check_independent_movementsE pHalf sDeg 102 206 5 =
      Except.ok (check_independent_movements pHalf sDeg 102 206 5) ∧
    (check_independent_movements pHalf sDeg 102 206 5).2 = none ∧
    (check_independent_movements pHalf sDeg 102 206 5).1.total_independent_change =
      sDeg.total_independent_change ∧
    (check_independent_movements pHalf sDeg 102 206 5).1.reference_time = sDeg.reference_time :=
  ⟨rfl, rfl, rfl, rfl⟩

/-- C6 (amended): a stored previous price of zero causes a silent skip,
not a surfaced error: the line-38 truthiness guard treats `0.0` exactly
like `None`, so the evaluation branch (with its divisions) never runs, no
error surfaces, no alert is emitted, the accumulator and reference time
are unchanged, and only the stored prices are overwritten. -/
theorem c6_zero_price_silent_skip (predict : ℚ → ℚ) (s : MonitorState) (ip tg now : ℚ)
    (h : s.last_influence_price = some 0 ∨ s.last_target_price = some 0) :
    check_independent_movementsE predict s ip tg now =
      Except.ok (check_independent_movements predict s ip tg now) ∧
    (check_independent_movements predict s ip tg now).2 = none ∧
    (check_independent_movements predict s ip tg now).1.total_independent_change =
      s.total_independent_change ∧
    (check_independent_movements predict s ip tg now).1.reference_time = s.reference_time := by
  have hg : (truthy s.last_influence_price && truthy s.last_target_price) = false := by
    rcases h with h | h <;> simp [h, truthy]
  refine ⟨?_, ?_, ?_, ?_⟩ <;>
    simp only [check_independent_movementsE, check_independent_movements, hg,
      Bool.false_eq_true, if_false]

/-- Witness for the amended C6 at a zero stored influence price. -/
theorem c6_zero_price_silent_skip_witness :
    check_independent_movementsE pHalf sDeg2 102 206 5 =
      Except.ok (check_independent_movements pHalf sDeg2 102 206 5) ∧
    (check_independent_movements pHalf sDeg2 102 206 5).2 = none ∧
    (check_independent_movements pHalf sDeg2 102 206 5).1.total_independent_change =
      sDeg2.total_independent_change ∧
    (check_independent_movements pHalf sDeg2 102 206 5).1.reference_time = sDeg2.reference_time :=
  c6_zero_price_silent_skip pHalf sDeg2 102 206 5 (Or.inl rfl)

/-- C9: the evaluation never divides by zero: the Except-refined step —
which fails exactly where the Python divisions of lines 41-42 would raise
`ZeroDivisionError` — always returns `ok` with the plain step's result,
because the line-38 truthiness guard admits only nonzero stored prices
into the branch containing the divisions. -/
theorem c9_no_division_by_zero (predict : ℚ → ℚ) (s : MonitorState) (ip tg now : ℚ) :
    check_independent_movementsE predict s ip tg now =
      Except.ok (check_independent_movements predict s ip tg now) := by
  unfold check_independent_movementsE
  split_ifs with h1 h2
  · rw [Bool.and_eq_true] at h1
    rcases h1 with ⟨ha, hb⟩
    exact absurd h2 (by
      push_neg
      exact ⟨truthy_getD_ne_zero _ hb, truthy_getD_ne_zero _ ha⟩)
  · rfl
  · rfl

/-- C7: if the fetch for any one of the input symbols fails, the whole
`prices` call fails: it produces an error, never a partial mapping
holding only the symbols whose fetches succeeded. -/
theorem c7_fetch_failure_is_total {ε : Type} (fetchPrice : String → Except ε ℚ)
    (symbols : List String) (sym : String) (e : ε)
    (hmem : sym ∈ symbols) (hf : fetchPrice sym = Except.error e) :
    (prices fetchPrice symbols).isOk = false := by
  induction symbols with
  | nil => cases hmem
  | cons a rest ih =>
    rcases List.mem_cons.mp hmem with h | h
    · subst h
      simp [prices, get_last_price, hf, Except.isOk, Except.toBool, Except.map, Except.bind,
        bind]
    · cases hfa : fetchPrice a with
      | error ea =>
        simp [prices, get_last_price, hfa, Except.isOk, Except.toBool, Except.map,
          Except.bind, bind]
      | ok pa =>
        have hr := ih h
        cases hp : prices fetchPrice rest with
        | error er =>
          simp [prices, get_last_price, hfa, hp, Except.isOk, Except.toBool, Except.map,
            Except.bind, bind]
        | ok m =>
          rw [hp] at hr
          simp [Except.isOk, Except.toBool] at hr

/-- Witness for C7: the fetch of `ETHUSDT` fails, so the whole dual fetch
fails. -/
theorem c7_fetch_failure_is_total_witness :
    (prices fetchW [influence_symbol, target_symbol]).isOk = false :=
  c7_fetch_failure_is_total fetchW [influence_symbol, target_symbol] "ETHUSDT"
    "QuoteUnavailable" (by simp [influence_symbol, target_symbol]) (by simp [fetchW])

/-- C8 counterexample: with fetches that fail only at iteration 0 and
succeed from iteration 1 on, observing the loop for 3 iterations ends in
the propagated fetch error — the loop stopped at its first failed cycle
instead of proceeding — although the very same loop started at iteration
1 completes normally. -/
theorem c8_counterexample :
    run_loop (fun x => x) fetch_flaky (fun k => (k : ℚ)) 0 3 (init 3600 1 0) =
      Except.error "QuoteUnavailable" ∧
    run_loop (fun x => x) fetch_flaky (fun k => (k : ℚ)) 1 1 (init 3600 1 0) =
      Except.ok { time_period := 3600, max_change := 1, last_influence_price := some 100, last_target_price := some 100, reference_time := 0, total_independent_change := 0 } :=
  ⟨rfl, rfl⟩

/-- C8 (amended): the loop body has no exception handling, so the first
sampling cycle whose fetch fails terminates the loop by propagating the
error; the loop does not proceed to its next iteration. (It runs
indefinitely only while every cycle's fetches succeed.) -/
theorem c8_first_failure_terminates {ε : Type} (predict : ℚ → ℚ)
    (fetchPrice : Nat → String → Except ε ℚ) (nowAt : Nat → ℚ)
    (k fuel : Nat) (m : MonitorState) (e : ε)
    (hf : prices (fetchPrice k) [influence_symbol, target_symbol] = Except.error e) :
    run_loop predict fetchPrice nowAt k (fuel + 1) m = Except.error e := by
  simp [run_loop, loop_iter, hf, Except.bind, bind]

/-- Witness for the amended C8: a fetch failure at iteration 0 ends a
5-iteration observation of the loop with that error. -/
theorem c8_first_failure_terminates_witness :
    run_loop (fun x => x) fetch_flaky (fun k => (k : ℚ)) 0 5 (init 3600 1 0) =
      Except.error "QuoteUnavailable" :=
  c8_first_failure_terminates (fun x => x) fetch_flaky (fun k => (k : ℚ)) 0 4
    (init 3600 1 0) "QuoteUnavailable" rfl

/-- Helper: a call to the step never changes the configured threshold. -/
theorem check_max_change_eq (predict : ℚ → ℚ) (s : MonitorState) (ip tg now : ℚ) :
    (check_independent_movements predict s ip tg now).1.max_change = s.max_change := by
  simp only [check_independent_movements]
  split_ifs <;> rfl

/-- Helper: with a falsy stored price, one call only overwrites the
stored prices. -/
theorem check_skip (predict : ℚ → ℚ) (s : MonitorState) (ip tg now : ℚ)
    (hg : (truthy s.last_influence_price && truthy s.last_target_price) = false) :
    check_independent_movements predict s ip tg now =
      ({ s with last_influence_price := some ip, last_target_price := some tg }, none) := by
  simp only [check_independent_movements, hg, Bool.false_eq_true, if_false]

/-- Helper: a single step preserves the bound |total| ≤ max. -/
theorem check_abs_le (predict : ℚ → ℚ) (s : MonitorState) (ip tg now : ℚ)
    (h : |s.total_independent_change| ≤ s.max_change) :
    |(check_independent_movements predict s ip tg now).1.total_independent_change| ≤
      s.max_change := by
  have h0 : (0 : ℚ) ≤ s.max_change := le_trans (abs_nonneg _) h
  cases hgb : (truthy s.last_influence_price && truthy s.last_target_price) with
  | false =>
    rw [check_skip predict s ip tg now hgb]
    simpa using h
  | true =>
    rw [Bool.and_eq_true] at hgb
    obtain ⟨ha, hb⟩ := hgb
    cases hia : s.last_influence_price with
    | none => rw [hia] at ha; simp [truthy] at ha
    | some li =>
      cases hta : s.last_target_price with
      | none => rw [hta] at hb; simp [truthy] at hb
      | some lt =>
        rw [hia] at ha
        rw [hta] at hb
        have hi0 : li ≠ 0 := by simpa [truthy] using ha
        have ht0 : lt ≠ 0 := by simpa [truthy] using hb
        rw [check_eval_branch predict s ip tg now li lt hia hi0 hta ht0]
        by_cases hc : |s.total_independent_change + ((tg - lt) / lt * 100 - predict ((ip - li) / li * 100))| > s.max_change ∨ now - s.reference_time > s.time_period
        · rw [if_pos hc]
          simpa using h0
        · rw [if_neg hc]
          push_neg at hc
          simpa using hc.1

/-- Helper: the bound |total| ≤ max is preserved by any call sequence. -/
theorem run_calls_abs_le (predict : ℚ → ℚ) (inputs : List (ℚ × ℚ × ℚ)) :
    ∀ s : MonitorState, |s.total_independent_change| ≤ s.max_change →
      |(run_calls predict s inputs).total_independent_change| ≤
        (run_calls predict s inputs).max_change := by
  induction inputs with
  | nil => intro s h; exact h
  | cons t rest ih =>
    rcases t with ⟨ip, tg, now⟩
    intro s h
    simp only [run_calls]
    apply ih
    rw [check_max_change_eq predict s ip tg now]
    exact check_abs_le predict s ip tg now h

/-- Helper: no call sequence changes the configured threshold. -/
theorem run_calls_max_change (predict : ℚ → ℚ) (inputs : List (ℚ × ℚ × ℚ)) :
    ∀ s : MonitorState, (run_calls predict s inputs).max_change = s.max_change := by
  induction inputs with
  | nil => intro s; rfl
  | cons t rest ih =>
    rcases t with ⟨ip, tg, now⟩
    intro s
    simp only [run_calls]
    rw [ih, check_max_change_eq]

/-- C10: with a nonnegative configured threshold, after every completed
call starting from the initial state, the accumulated independent change
satisfies |totalIndependentChange| ≤ maxIndependentChange: any
accumulation that exceeds the threshold is reset to 0 within the same
call. -/
theorem c10_threshold_invariant (predict : ℚ → ℚ) (tp mc t0 : ℚ) (hmc : 0 ≤ mc)
    (inputs : List (ℚ × ℚ × ℚ)) :
    |(run_calls predict (init tp mc t0) inputs).total_independent_change| ≤ mc := by
  have h := run_calls_abs_le predict inputs (init tp mc t0) (by simpa [init] using hmc)
  rwa [run_calls_max_change predict inputs (init tp mc t0)] at h

/-- Witness for C10 at threshold 1 and a two-call input sequence. -/
theorem c10_threshold_invariant_witness :
    |(run_calls pHalf (init 3600 1 0) [(100, 200, 1), (102, 206, 2)]).total_independent_change| ≤ 1 :=
  c10_threshold_invariant pHalf 3600 1 0 (by norm_num) [(100, 200, 1), (102, 206, 2)]

end IndependentMovements
